import Mathlib

/-!
Verification of the deployment/poll/teardown lifecycle of the pyvespa
cloud integration harness.

Embedded from the source:
* the production build-status polling loop of
  `tests/integration/test_integration_vespa_cloud_token.py`
  (`TestMsmarcoProdApplicationWithTokenAuth.setUp`, lines 218-230);
* the prod teardown sequence of the same file (`tearDown`, lines 271-287),
  including the validation-override date computation
  (`datetime.now() + timedelta(days=1)` formatted as a calendar day).

The generalized `DeploymentController` (`submit`, `awaitCompletion`,
`teardown` with the `DeploymentFailed` / `DeploymentTimeout` /
`TeardownFailed` taxonomy) lives in `vespa/deployment.py`, which is not
among the provided sources; those operations are modelled from the spec,
each such definition carrying a `Modelled from the spec:` doc comment.

Time is discrete: a status query is instantaneous and each sleep advances
the wall clock by the poll interval, so the elapsed time after `k` sleeps
is `k * pollInterval`.
-/

namespace PyvespaLifecycle

/-- Deployment status reported by the control plane, one of
{Submitted, InProgress, Done, Failed} (spec section 3). -/
inductive DeploymentStatus where
  | submitted
  | inProgress
  | done
  | failed
deriving DecidableEq, Repr

/-- A status is terminal when it is Done or Failed. -/
def DeploymentStatus.isTerminal : DeploymentStatus → Bool
  | .done => true
  | .failed => true
  | _ => false

/-- A running instance descriptor: base URL, environment, region
(spec section 3). -/
structure RunningInstance where
  url : String
  environment : String
  region : String
deriving DecidableEq, Repr

/-- Modelled from the spec: the three-outcome result of `awaitCompletion`
(`vespa/deployment.py` is not among the provided sources): a
`RunningInstance` on Done, `DeploymentFailed` on a terminal Failed status,
`DeploymentTimeout` when the wait ceiling elapses first. -/
inductive AwaitResult where
  | running (inst : RunningInstance)
  | deploymentFailed
  | deploymentTimeout
deriving DecidableEq, Repr

/-- Observable trace of one `awaitCompletion` run: its result, the number
of `queryStatus` calls, the number of poll-interval sleeps, and the
wall-clock time at return. -/
structure AwaitTrace where
  result : AwaitResult
  polls : Nat
  sleeps : Nat
  elapsed : Nat
deriving DecidableEq, Repr

/-- Modelled from the spec: the polling loop of `awaitCompletion`
(the implementation in `vespa/deployment.py` is not among the provided
sources; the loop shape — check elapsed time against the ceiling before
each poll, query, stop on a terminal status, otherwise sleep one fixed
interval — mirrors the caller loop in
`tests/integration/test_integration_vespa_cloud_token.py` lines 218-230).
`statuses k` is the status returned by the `k`-th `queryStatus` call,
`k * pollInterval` the wall clock at that call.  `fuel` bounds the
recursion; `awaitCompletion` supplies enough of it whenever
`pollInterval ≥ 1`. -/
def awaitLoop (statuses : Nat → DeploymentStatus) (inst : RunningInstance)
    (maxWait pollInterval : Nat) : Nat → Nat → AwaitTrace
  | 0, k => ⟨.deploymentTimeout, k, k, k * pollInterval⟩
  | fuel + 1, k =>
    if maxWait ≤ k * pollInterval then
      ⟨.deploymentTimeout, k, k, k * pollInterval⟩
    else
      match statuses k with
      | .done => ⟨.running inst, k + 1, k, k * pollInterval⟩
      | .failed => ⟨.deploymentFailed, k + 1, k, k * pollInterval⟩
      | _ => awaitLoop statuses inst maxWait pollInterval fuel (k + 1)

/-- Modelled from the spec: `awaitCompletion(handle, maxWait, pollInterval)`
polls `queryStatus` every `pollInterval` until the status is Done, Failed,
or `maxWait` elapses; on Done it returns the instance fetched by
`fetchRunningInstance` (here the parameter `inst`). -/
def awaitCompletion (statuses : Nat → DeploymentStatus) (inst : RunningInstance)
    (maxWait pollInterval : Nat) : AwaitTrace :=
  awaitLoop statuses inst maxWait pollInterval (maxWait + 1) 0

/-- Observable trace of the production wait loop inlined in
`TestMsmarcoProdApplicationWithTokenAuth.setUp`: the `success` flag, the
number of `check_production_build_status` calls, the number of
`time.sleep(5)` calls, and the wall clock on exit. -/
structure ProdWaitTrace where
  success : Bool
  polls : Nat
  sleeps : Nat
  elapsed : Nat
deriving DecidableEq, Repr

/-- The wait loop of `setUp` (source lines 219-228): while the elapsed
time is below `maxWait`, query the build status; on `"done"` set the
success flag and break, otherwise sleep 5 seconds.  `buildStatus k` is
the `"status"` field of the `k`-th response; the wall clock at that
query is `k * 5`. -/
def prodWaitLoop (buildStatus : Nat → String) (maxWait : Nat) :
    Nat → Nat → ProdWaitTrace
  | 0, k => ⟨false, k, k, k * 5⟩
  | fuel + 1, k =>
    if k * 5 < maxWait then
      if buildStatus k = "done" then
        ⟨true, k + 1, k, k * 5⟩
      else
        prodWaitLoop buildStatus maxWait fuel (k + 1)
    else
      ⟨false, k, k, k * 5⟩

/-- The full wait of `setUp` starting at wall clock 0 with enough fuel
for any `maxWait`. -/
def prodBuildWait (buildStatus : Nat → String) (maxWait : Nat) : ProdWaitTrace :=
  prodWaitLoop buildStatus maxWait (maxWait + 1) 0

/-- The outcome of `setUp`'s wait (source lines 229-230): when the loop
exits without success, `ValueError("Deployment failed")` is raised. -/
def setUpDeploymentWait (buildStatus : Nat → String) (maxWait : Nat) :
    Except String Unit :=
  if (prodBuildWait buildStatus maxWait).success then .ok ()
  else .error "Deployment failed"

/-- Modelled from the spec: the outcome of `submit(request)`
(`vespa/deployment.py` is not among the provided sources): a dev request
returns a `RunningInstance` on success or fails with `DeploymentFailed`
carrying the upstream error; a prod request returns a `BuildHandle`
or fails with `SubmissionFailed`. -/
inductive SubmitOutcome where
  | running (inst : RunningInstance)
  | buildHandle (handle : Nat)
  | deploymentFailedWith (err : String)
  | submissionFailed (err : String)
deriving DecidableEq, Repr

/-- Observable trace of one `submit` call: its outcome and the number of
`queryStatus` invocations it performed. -/
structure SubmitTrace where
  outcome : SubmitOutcome
  statusQueries : Nat
deriving DecidableEq, Repr

/-- Modelled from the spec: `submit(request)`.  `isProd` is the request's
target environment; `submitDev` and `submitProd` are the results of the
corresponding `ControlPlaneClient` calls.  A dev request performs one
synchronous submission and never queries a build status; a prod request
submits and returns the build handle without blocking. -/
def submit (isProd : Bool) (submitDev : Except String RunningInstance)
    (submitProd : Except String Nat) : SubmitTrace :=
  if isProd then
    match submitProd with
    | .ok handle => ⟨.buildHandle handle, 0⟩
    | .error e => ⟨.submissionFailed e, 0⟩
  else
    match submitDev with
    | .ok inst => ⟨.running inst, 0⟩
    | .error e => ⟨.deploymentFailedWith e, 0⟩

/-- Local lifecycle state of one deployment: `running` before teardown,
`removed` after an acknowledged removal submission. -/
inductive InstanceState where
  | running
  | removed
deriving DecidableEq, Repr

/-- Non-fatal warnings recorded during teardown. -/
inductive TeardownWarning where
  | dataCleanupWarning
deriving DecidableEq, Repr

/-- Fatal teardown errors. -/
inductive TeardownError where
  | teardownFailed
deriving DecidableEq, Repr

/-- Outcome of one `teardown` call: the resulting local state, the
warnings recorded, and the fatal error if any. -/
structure TeardownOutcome where
  state : InstanceState
  warnings : List TeardownWarning
  error : Option TeardownError
deriving DecidableEq, Repr

/-- Modelled from the spec: `teardown(instance)` (`vespa/deployment.py`
is not among the provided sources).  Step 1 issues the data-plane
delete-all; its failure (`deleteAllOk = false`) only records
`DataCleanupWarning` and does not abort.  Step 3 submits the removal
configuration (`removalSubmitOk`): on success the state becomes
`Removed`; on failure the call fails with `TeardownFailed` and the local
state is left unchanged.  The removal submission is idempotent at the
control-plane level, so it is issued from any starting state. -/
def teardown (deleteAllOk removalSubmitOk : Bool) (st : InstanceState) :
    TeardownOutcome :=
  let warnings := if deleteAllOk then [] else [TeardownWarning.dataCleanupWarning]
  if removalSubmitOk then ⟨.removed, warnings, none⟩
  else ⟨st, warnings, some .teardownFailed⟩

/-- Seconds per calendar day; wall-clock times are seconds, calendar
days their quotient. -/
def secondsPerDay : Nat := 86400

/-- The calendar day containing wall-clock time `t`. -/
def dayOf (t : Nat) : Nat := t / secondsPerDay

/-- The validation-override date of the prod `tearDown`
(source lines 279-280): `tomorrow = datetime.now() + timedelta(days=1)`
formatted as its calendar day (`strftime("%Y-%m-%d")`). -/
def validationOverrideDay (t : Nat) : Nat := dayOf (t + secondsPerDay)

/-- A control plane that rejects same-day validation overrides accepts an
override dated `overrideDay` for a submission at time `t` exactly when
the override day is strictly later than the submission's day. -/
def sameDayRejectingPlaneAccepts (t overrideDay : Nat) : Bool :=
  decide (dayOf t < overrideDay)

/-- A deployment configuration of the application package: either a prod
configuration with regions (`DeploymentConfiguration`) or the empty one
(`EmptyDeploymentConfiguration`). -/
inductive DeploymentConfig where
  | prodConfig (environment : String) (regions : List String)
  | emptyConfig
deriving DecidableEq, Repr

/-- A validation override entry `Validation(ValidationID(id), day)`. -/
structure Validation where
  id : String
  untilDay : Nat
deriving DecidableEq, Repr

/-- The slice of the application package the prod `tearDown` mutates:
its deployment configuration and its validations list. -/
structure AppPackage where
  deployment_config : DeploymentConfig
  validations : List Validation
deriving DecidableEq, Repr

/-- One observable step of the prod `tearDown` (source lines 271-287). -/
inductive TeardownEvent where
  | deleteAllDocs (cluster schema : String)
  | writeToFiles (pkg : AppPackage)
  | startProdDeployment
  | removeDiskFolder
deriving DecidableEq, Repr

/-- The prod `tearDown` sequence of
`TestMsmarcoProdApplicationWithTokenAuth` (source lines 271-287) at
wall-clock time `t`: delete all docs of the `msmarco_content` cluster,
replace the package's deployment configuration with the empty one, set
its validations to the single dated `deployment-removal` override, write
the package to the disk folder, start the prod (removal) deployment,
then remove the disk folder.  Returns the mutated package and the event
trace in execution order. -/
def prodTearDown (pkg : AppPackage) (t : Nat) :
    AppPackage × List TeardownEvent :=
  let pkg1 : AppPackage := { pkg with deployment_config := .emptyConfig }
  let pkg2 : AppPackage :=
    { pkg1 with validations := [⟨"deployment-removal", validationOverrideDay t⟩] }
  (pkg2,
    [.deleteAllDocs "msmarco_content" "msmarco",
     .writeToFiles pkg2,
     .startProdDeployment,
     .removeDiskFolder])

/-- The status sequence [Submitted, InProgress, InProgress, Done] of
spec property P3 (poll `k` sees the `k`-th entry, then Done onward). -/
def seqA : Nat → DeploymentStatus
  | 0 => .submitted
  | 1 => .inProgress
  | 2 => .inProgress
  | _ => .done

/-- The status sequence [Submitted, Done] of spec property P3. -/
def seqB : Nat → DeploymentStatus
  | 0 => .submitted
  | _ => .done

theorem timeout_exit_bound (p : Nat) (hp : 1 ≤ p) (T k : Nat)
    (hinv : k = 0 ∨ (k - 1) * p < T) : k * p < T + p := by
  rcases hinv with h0 | hlt
  · subst h0
    simpa using Nat.lt_of_lt_of_le hp (Nat.le_add_left p T)
  · calc k * p ≤ ((k - 1) + 1) * p := Nat.mul_le_mul_right p (by omega)
      _ = (k - 1) * p + p := by ring
      _ < T + p := Nat.add_lt_add_right hlt p

theorem awaitLoop_nonterminal (statuses : Nat → DeploymentStatus)
    (inst : RunningInstance) (T p : Nat) (hp : 1 ≤ p)
    (hnt : ∀ n, (statuses n).isTerminal = false) :
    ∀ fuel k, T ≤ (k + fuel) * p → (k = 0 ∨ (k - 1) * p < T) →
    ∃ K, awaitLoop statuses inst T p fuel k = ⟨.deploymentTimeout, K, K, K * p⟩ ∧
      T ≤ K * p ∧ K * p < T + p := by
  intro fuel
  induction fuel with
  | zero =>
    intro k hfuel hinv
    refine ⟨k, rfl, by simpa using hfuel, timeout_exit_bound p hp T k hinv⟩
  | succ fuel ih =>
    intro k hfuel hinv
    by_cases hkT : T ≤ k * p
    · exact ⟨k, by simp [awaitLoop, hkT], hkT, timeout_exit_bound p hp T k hinv⟩
    · have hknt := hnt k
      have hstep : awaitLoop statuses inst T p (fuel + 1) k =
          awaitLoop statuses inst T p fuel (k + 1) := by
        cases hsk : statuses k with
        | done => rw [hsk] at hknt; simp [DeploymentStatus.isTerminal] at hknt
        | failed => rw [hsk] at hknt; simp [DeploymentStatus.isTerminal] at hknt
        | submitted => simp [awaitLoop, hkT, hsk]
        | inProgress => simp [awaitLoop, hkT, hsk]
      rw [hstep]
      refine ih (k + 1) ?_ (Or.inr (by simpa using not_le.mp hkT))
      have harith : (k + (fuel + 1)) * p = ((k + 1) + fuel) * p := by ring
      exact harith ▸ hfuel

theorem awaitLoop_done (statuses : Nat → DeploymentStatus)
    (inst : RunningInstance) (T p j : Nat)
    (hnt : ∀ i, i < j → (statuses i).isTerminal = false)
    (hj : statuses j = .done) (hjT : j * p < T) :
    ∀ fuel k, k ≤ j → j < k + fuel →
    awaitLoop statuses inst T p fuel k = ⟨.running inst, j + 1, j, j * p⟩ := by
  intro fuel
  induction fuel with
  | zero => intro k hk hfuel; omega
  | succ fuel ih =>
    intro k hk hfuel
    have hkT : ¬ T ≤ k * p := fun hTle =>
      absurd hjT (not_lt.mpr (le_trans hTle (Nat.mul_le_mul_right p hk)))
    by_cases hkj : k = j
    · subst hkj
      simp [awaitLoop, hkT, hj]
    · have hklt : k < j := lt_of_le_of_ne hk hkj
      have hknt := hnt k hklt
      have hstep : awaitLoop statuses inst T p (fuel + 1) k =
          awaitLoop statuses inst T p fuel (k + 1) := by
        cases hsk : statuses k with
        | done => rw [hsk] at hknt; simp [DeploymentStatus.isTerminal] at hknt
        | failed => rw [hsk] at hknt; simp [DeploymentStatus.isTerminal] at hknt
        | submitted => simp [awaitLoop, hkT, hsk]
        | inProgress => simp [awaitLoop, hkT, hsk]
      rw [hstep]
      exact ih (k + 1) hklt (by omega)

theorem awaitLoop_failed (statuses : Nat → DeploymentStatus)
    (inst : RunningInstance) (T p j : Nat)
    (hnt : ∀ i, i < j → (statuses i).isTerminal = false)
    (hj : statuses j = .failed) (hjT : j * p < T) :
    ∀ fuel k, k ≤ j → j < k + fuel →
    awaitLoop statuses inst T p fuel k = ⟨.deploymentFailed, j + 1, j, j * p⟩ := by
  intro fuel
  induction fuel with
  | zero => intro k hk hfuel; omega
  | succ fuel ih =>
    intro k hk hfuel
    have hkT : ¬ T ≤ k * p := fun hTle =>
      absurd hjT (not_lt.mpr (le_trans hTle (Nat.mul_le_mul_right p hk)))
    by_cases hkj : k = j
    · subst hkj
      simp [awaitLoop, hkT, hj]
    · have hklt : k < j := lt_of_le_of_ne hk hkj
      have hknt := hnt k hklt
      have hstep : awaitLoop statuses inst T p (fuel + 1) k =
          awaitLoop statuses inst T p fuel (k + 1) := by
        cases hsk : statuses k with
        | done => rw [hsk] at hknt; simp [DeploymentStatus.isTerminal] at hknt
        | failed => rw [hsk] at hknt; simp [DeploymentStatus.isTerminal] at hknt
        | submitted => simp [awaitLoop, hkT, hsk]
        | inProgress => simp [awaitLoop, hkT, hsk]
      rw [hstep]
      exact ih (k + 1) hklt (by omega)

theorem le_fuel_bound (T p j : Nat) (hp : 1 ≤ p) (hjT : j * p < T) :
    j < 0 + (T + 1) := by
  have hjj : j * 1 ≤ j * p := Nat.mul_le_mul_left j hp
  have : j < T := lt_of_le_of_lt (by simpa using hjj) hjT
  omega

/-- C1: for every maxWait T > 0 and every control plane whose status
responses never reach a terminal state, `awaitCompletion` terminates with
a DeploymentTimeout failure at a wall-clock time in [T, T + pollInterval),
never later; moreover every status query was issued strictly before the
ceiling (each poll is followed by a sleep, so polls = sleeps), making the
elapsed-time check a hard ceiling on further polling. -/
theorem awaitCompletion_timeout_window (statuses : Nat → DeploymentStatus)
    (inst : RunningInstance) (T p : Nat) (_hT : 0 < T) (hp : 1 ≤ p)
    (hnt : ∀ n, (statuses n).isTerminal = false) :
    (awaitCompletion statuses inst T p).result = .deploymentTimeout ∧
    T ≤ (awaitCompletion statuses inst T p).elapsed ∧
    (awaitCompletion statuses inst T p).elapsed < T + p ∧
    (awaitCompletion statuses inst T p).polls =
      (awaitCompletion statuses inst T p).sleeps := by
  have hfuel : T ≤ (0 + (T + 1)) * p := by
    have h1 : (T + 1) * 1 ≤ (T + 1) * p := Nat.mul_le_mul_left (T + 1) hp
    have h2 : T ≤ (T + 1) * 1 := by omega
    simpa using le_trans h2 h1
  obtain ⟨K, hK, hlo, hhi⟩ :=
    awaitLoop_nonterminal statuses inst T p hp hnt (T + 1) 0 hfuel (Or.inl rfl)
  unfold awaitCompletion
  rw [hK]
  exact ⟨rfl, hlo, hhi, rfl⟩

/-- Witness for C1 at a concrete never-terminal control plane,
maxWait 7 and pollInterval 3: timeout is detected at elapsed time 9. -/
theorem awaitCompletion_timeout_window_witness :
    (awaitCompletion (fun _ => .inProgress) ⟨"e", "prod", "r"⟩ 7 3).result =
      .deploymentTimeout ∧
    7 ≤ (awaitCompletion (fun _ => .inProgress) ⟨"e", "prod", "r"⟩ 7 3).elapsed ∧
    (awaitCompletion (fun _ => .inProgress) ⟨"e", "prod", "r"⟩ 7 3).elapsed < 7 + 3 ∧
    (awaitCompletion (fun _ => .inProgress) ⟨"e", "prod", "r"⟩ 7 3).polls =
      (awaitCompletion (fun _ => .inProgress) ⟨"e", "prod", "r"⟩ 7 3).sleeps :=
  awaitCompletion_timeout_window (fun _ => .inProgress) ⟨"e", "prod", "r"⟩ 7 3
    (by decide) (by decide) (fun _ => rfl)

/-- C2: when the control plane first reports the terminal Failed status at
poll j (all earlier polls non-terminal, poll j still inside the wait
ceiling), `awaitCompletion` fails with DeploymentFailed on that very poll:
exactly j + 1 status queries and j sleeps are performed, no further
queries and no further sleeps. -/
theorem awaitCompletion_failed_first (statuses : Nat → DeploymentStatus)
    (inst : RunningInstance) (T p j : Nat) (hp : 1 ≤ p)
    (hnt : ∀ i, i < j → (statuses i).isTerminal = false)
    (hj : statuses j = .failed) (hjT : j * p < T) :
    awaitCompletion statuses inst T p = ⟨.deploymentFailed, j + 1, j, j * p⟩ := by
  unfold awaitCompletion
  exact awaitLoop_failed statuses inst T p j hnt hj hjT (T + 1) 0 (Nat.zero_le j)
    (le_fuel_bound T p j hp hjT)

/-- Witness for C2: a control plane reporting Failed on the very first
poll, maxWait 10, pollInterval 2: one query, zero sleeps. -/
theorem awaitCompletion_failed_first_witness :
    awaitCompletion (fun _ => .failed) ⟨"e", "prod", "r"⟩ 10 2 =
      ⟨.deploymentFailed, 0 + 1, 0, 0 * 2⟩ :=
  awaitCompletion_failed_first (fun _ => .failed) ⟨"e", "prod", "r"⟩ 10 2 0
    (by decide) (fun i hi => absurd hi (Nat.not_lt_zero i)) rfl (by decide)

/-- C3: the DeploymentTimeout outcome produced when the wait ceiling
elapses is distinguishable from the DeploymentFailed outcome produced
when the control plane reports a terminal failure: for every pair of
`awaitCompletion` runs, one ending in timeout and one ending in reported
failure, the two resulting error values are distinct. -/
theorem timeout_distinct_from_failed
    (s1 : Nat → DeploymentStatus) (i1 : RunningInstance) (T1 p1 : Nat)
    (s2 : Nat → DeploymentStatus) (i2 : RunningInstance) (T2 p2 : Nat)
    (h1 : (awaitCompletion s1 i1 T1 p1).result = .deploymentTimeout)
    (h2 : (awaitCompletion s2 i2 T2 p2).result = .deploymentFailed) :
    (awaitCompletion s1 i1 T1 p1).result ≠ (awaitCompletion s2 i2 T2 p2).result := by
  rw [h1, h2]
  exact fun h => AwaitResult.noConfusion h

/-- Witness for C3: a run that times out (never-terminal statuses,
maxWait 1, pollInterval 1) against a run that fails on first poll. -/
theorem timeout_distinct_from_failed_witness :
    (awaitCompletion (fun _ => .inProgress) ⟨"e", "prod", "r"⟩ 1 1).result ≠
    (awaitCompletion (fun _ => .failed) ⟨"e", "prod", "r"⟩ 1 1).result :=
  timeout_distinct_from_failed (fun _ => .inProgress) ⟨"e", "prod", "r"⟩ 1 1
    (fun _ => .failed) ⟨"e", "prod", "r"⟩ 1 1 (by decide) (by decide)

/-- C6: the final outcome depends only on the last-observed status, not on
intermediate non-terminal values: with timing such that neither run times
out (3 * pollInterval < maxWait), the sequences
[Submitted, InProgress, InProgress, Done] and [Submitted, Done] both end
in the Running state with the same RunningInstance value. -/
theorem awaitCompletion_last_status_only (inst : RunningInstance) (T p : Nat)
    (hp : 1 ≤ p) (h3 : 3 * p < T) :
    (awaitCompletion seqA inst T p).result = .running inst ∧
    (awaitCompletion seqB inst T p).result = .running inst ∧
    (awaitCompletion seqA inst T p).result = (awaitCompletion seqB inst T p).result := by
  have h1T : 1 * p < T :=
    lt_of_le_of_lt (Nat.mul_le_mul_right p (by norm_num)) h3
  have hA : awaitCompletion seqA inst T p = ⟨.running inst, 3 + 1, 3, 3 * p⟩ := by
    unfold awaitCompletion
    refine awaitLoop_done seqA inst T p 3 ?_ rfl h3 (T + 1) 0 (Nat.zero_le 3)
      (le_fuel_bound T p 3 hp h3)
    intro i hi
    interval_cases i <;> rfl
  have hB : awaitCompletion seqB inst T p = ⟨.running inst, 1 + 1, 1, 1 * p⟩ := by
    unfold awaitCompletion
    refine awaitLoop_done seqB inst T p 1 ?_ rfl h1T (T + 1) 0 (Nat.zero_le 1)
      (le_fuel_bound T p 1 hp h1T)
    intro i hi
    interval_cases i
    rfl
  rw [hA, hB]
  exact ⟨rfl, rfl, rfl⟩

/-- Witness for C6 at maxWait 100 and pollInterval 5. -/
theorem awaitCompletion_last_status_only_witness :
    (awaitCompletion seqA ⟨"e", "prod", "aws-us-east-1c"⟩ 100 5).result =
      .running ⟨"e", "prod", "aws-us-east-1c"⟩ ∧
    (awaitCompletion seqB ⟨"e", "prod", "aws-us-east-1c"⟩ 100 5).result =
      .running ⟨"e", "prod", "aws-us-east-1c"⟩ ∧
    (awaitCompletion seqA ⟨"e", "prod", "aws-us-east-1c"⟩ 100 5).result =
      (awaitCompletion seqB ⟨"e", "prod", "aws-us-east-1c"⟩ 100 5).result :=
  awaitCompletion_last_status_only ⟨"e", "prod", "aws-us-east-1c"⟩ 100 5
    (by decide) (by decide)

/-- C9: whenever maxWait > 0, the `setUp` wait loop issues its first
status query before any sleep: if the very first build-status response is
the terminal success status "done", the wait succeeds after exactly one
query and zero poll-interval sleeps, at wall-clock time 0. -/
theorem prodBuildWait_first_poll_done (buildStatus : Nat → String)
    (maxWait : Nat) (hw : 0 < maxWait) (h0 : buildStatus 0 = "done") :
    prodBuildWait buildStatus maxWait = ⟨true, 1, 0, 0⟩ := by
  unfold prodBuildWait
  simp [prodWaitLoop, hw, h0]

/-- Witness for C9 at the source's maxWait of 1200 seconds and a control
plane answering "done" immediately. -/
theorem prodBuildWait_first_poll_done_witness :
    prodBuildWait (fun _ => "done") 1200 = ⟨true, 1, 0, 0⟩ :=
  prodBuildWait_first_poll_done (fun _ => "done") 1200 (by decide) rfl

/-- C7: a dev/non-prod `submit` performs zero status polls, whatever the
control plane answers, and on success returns the RunningInstance from
the synchronous submission call. -/
theorem submit_dev_never_polls (submitDev : Except String RunningInstance)
    (submitProd : Except String Nat) :
    (submit false submitDev submitProd).statusQueries = 0 ∧
    (∀ inst, submitDev = Except.ok inst →
      (submit false submitDev submitProd).outcome = .running inst) := by
  constructor
  · cases submitDev <;> simp [submit]
  · intro inst h
    subst h
    simp [submit]

/-- Witness for C7: a successful dev submission returns its
RunningInstance with zero status queries. -/
theorem submit_dev_never_polls_witness :
    (submit false (Except.ok ⟨"url", "dev", "r"⟩) (Except.ok 42)).statusQueries = 0 ∧
    (submit false (Except.ok ⟨"url", "dev", "r"⟩) (Except.ok 42)).outcome =
      .running ⟨"url", "dev", "r"⟩ :=
  ⟨(submit_dev_never_polls (Except.ok ⟨"url", "dev", "r"⟩) (Except.ok 42)).1,
   (submit_dev_never_polls (Except.ok ⟨"url", "dev", "r"⟩) (Except.ok 42)).2
     ⟨"url", "dev", "r"⟩ rfl⟩

/-- C4: a failure of the data-plane delete-all step does not abort
teardown of a running instance: the removal submission still proceeds,
and when it succeeds the final state is Removed with only the non-fatal
DataCleanupWarning recorded and no fatal error. -/
theorem teardown_survives_cleanup_failure :
    teardown false true .running =
      ⟨.removed, [TeardownWarning.dataCleanupWarning], none⟩ := rfl

/-- C8: teardown is idempotent: for a Running instance, calling
`teardown` twice in a row (against a control plane with consistent
delete-all and removal behaviour) produces the same terminal state as
calling it once; the second call harmlessly repeats the removal
submission. -/
theorem teardown_idempotent (d1 d2 r : Bool) :
    (teardown d2 r (teardown d1 r .running).state).state =
      (teardown d1 r .running).state := by
  cases r
  · rfl
  · rfl

/-- C5: for every teardown submitted at wall-clock time t, the
validation-override date written into the removal configuration is a
strictly later calendar day than the day of submission, so a control
plane that rejects same-day overrides still accepts the removal. -/
theorem validation_override_is_future (t : Nat) :
    dayOf t < validationOverrideDay t ∧
    sameDayRejectingPlaneAccepts t (validationOverrideDay t) = true := by
  have h : validationOverrideDay t = dayOf t + 1 := by
    unfold validationOverrideDay dayOf secondsPerDay
    rw [Nat.add_div_right _ (by norm_num)]
  refine ⟨?_, ?_⟩
  · rw [h]
    exact Nat.lt_succ_self _
  · unfold sameDayRejectingPlaneAccepts
    rw [h]
    simp

/-- C10: every prod teardown builds its removal submission in a fixed
shape: the package's deployment configuration becomes the empty
configuration, its validations list becomes exactly the one dated
deployment-removal override, and the event trace writes the package to
the staging folder strictly before the removal submission is started. -/
theorem prodTearDown_shape (pkg : AppPackage) (t : Nat) :
    (prodTearDown pkg t).1.deployment_config = .emptyConfig ∧
    (prodTearDown pkg t).1.validations =
      [⟨"deployment-removal", validationOverrideDay t⟩] ∧
    (prodTearDown pkg t).2 =
      [.deleteAllDocs "msmarco_content" "msmarco",
       .writeToFiles (prodTearDown pkg t).1,
       .startProdDeployment,
       .removeDiskFolder] :=
  ⟨rfl, rfl, rfl⟩

end PyvespaLifecycle
